import Mathlib

/-!
Shallow embedding of the PDF4QT 3D scene processor
(`pdf3dsceneprocessor.cpp`, namespace `pdfviewer`): the data model of the
U3D scene resources, the scene-building functions, and theorems about the
specified behaviour.  Machine floats are modelled as exact rationals and
the Qt object trees produced by the builder are modelled as inductive
values.  Qt-side recursion through child nodes is modelled with explicit
fuel, since the original code recurses without any bound.
-/

namespace Pdf3D

/-- A 3-component vector (`QVector3D`); components are exact rationals. -/
structure Vec3 where
  x : ℚ
  y : ℚ
  z : ℚ
  deriving DecidableEq, Repr

/-- A 4-component vector (`QVector4D`). -/
structure Vec4 where
  x : ℚ
  y : ℚ
  z : ℚ
  w : ℚ
  deriving DecidableEq, Repr

/-- `QVector4D::toVector3D`: drop the fourth component. -/
def Vec4.toVector3D (v : Vec4) : Vec3 :=
  ⟨v.x, v.y, v.z⟩

/-- A color (`QColor`) with red/green/blue/alpha channels as rationals
(`redF`, `greenF`, `blueF`, `alphaF`). -/
structure QColor where
  r : ℚ
  g : ℚ
  b : ℚ
  a : ℚ
  deriving DecidableEq, Repr

/-- `QColor(Qt::transparent)`: all channels zero. -/
def transparentColor : QColor := ⟨0, 0, 0, 0⟩

/-- A decoded texture image (`QImage`), kept as an uninterpreted payload
with its size; texture decoding is an external collaborator. -/
structure QImage where
  width : Nat
  height : Nat
  bits : List Nat
  deriving DecidableEq, Repr

/-- A 4×4 matrix (`QMatrix4x4`), carried through the builder without
being interpreted: entries in row-major order. -/
abbrev Mat4 := List ℚ

/-- Componentwise minimum of two `Vec3` (the `qMin` per component done by
`PDF3DBoundingBox::getBoundingBox`). -/
def vmin (u v : Vec3) : Vec3 :=
  ⟨min u.x v.x, min u.y v.y, min u.z v.z⟩

/-- Componentwise maximum of two `Vec3`. -/
def vmax (u v : Vec3) : Vec3 :=
  ⟨max u.x v.x, max u.y v.y, max u.z v.z⟩

/-- `PDF3DBoundingBox`: either the default-constructed empty box or a box
with min/max corners. -/
inductive PDF3DBoundingBox where
  | emptyBox
  | box (mn mx : Vec3)
  deriving DecidableEq, Repr

/-- `PDF3DBoundingBox::isEmpty`. -/
def PDF3DBoundingBox.isEmpty : PDF3DBoundingBox → Bool
  | .emptyBox => true
  | .box _ _ => false

/-- `PDF3DBoundingBox::getMin` (the empty box is never queried). -/
def PDF3DBoundingBox.getMin : PDF3DBoundingBox → Vec3
  | .emptyBox => ⟨0, 0, 0⟩
  | .box mn _ => mn

/-- `PDF3DBoundingBox::getMax`. -/
def PDF3DBoundingBox.getMax : PDF3DBoundingBox → Vec3
  | .emptyBox => ⟨0, 0, 0⟩
  | .box _ mx => mx

/-- `PDF3DBoundingBox::getBoundingBox(points)`: the empty box for an
empty input, otherwise min/max seeded with the first point and folded
with componentwise `qMin`/`qMax` over the whole list (source lines
1501–1523). -/
def PDF3DBoundingBox.getBoundingBox (points : List Vec3) : PDF3DBoundingBox :=
  match points with
  | [] => .emptyBox
  | p :: _ => .box (points.foldl vmin p) (points.foldl vmax p)

/-- The visualization modes of `PDF3DSceneProcessor` (`SceneMode`). -/
inductive SceneMode where
  | solid
  | solidWireframe
  | transparent
  | transparentWireframe
  | boundingBox
  | transparentBoundingBox
  | transparentBoundingBoxOutline
  | wireframe
  | shadedWireframe
  | hiddenWireframe
  | vertices
  | shadedVertices
  | illustration
  | solidOutline
  | shadedIllustration
  deriving DecidableEq, Repr

/-- `PDF3D_U3D_Node::NodeType`. -/
inductive NodeType where
  | unknown
  | group
  | model
  | light
  | view
  deriving DecidableEq, Repr

/-- A node of the U3D scene graph (`PDF3D_U3D_Node`): identity name,
type, named children, optional child transforms and a resource
reference.  Child transforms are modelled by the two flags used by the
processor plus total accessors. -/
structure U3DNode where
  nodeName : String
  nodeType : NodeType
  children : List String
  hasChildTransformFlag : Bool
  hasConstantChildTransformFlag : Bool
  constantChildTransform : Mat4
  childTransform : String → Mat4
  resourceName : String

/-- A vertex of a mesh triangle (`PDF3D_U3D_MeshGeometry::Vertex`):
indices into the attribute arrays. -/
structure MeshVertex where
  positionIndex : Nat
  normalIndex : Nat
  diffuseColorIndex : Nat
  textureCoordIndex : Nat
  deriving DecidableEq, Repr

/-- A mesh triangle (`PDF3D_U3D_MeshGeometry::Triangle`): three vertices
and per-triangle flags. -/
structure MeshTriangle where
  v0 : MeshVertex
  v1 : MeshVertex
  v2 : MeshVertex
  hasTexture : Bool
  hasDiffuse : Bool
  hasSpecular : Bool
  deriving DecidableEq, Repr

/-- The three vertices of a triangle in the order the processor's inner
loop visits them (`triangle.vertices[0..2]`). -/
def MeshTriangle.verticesList (t : MeshTriangle) : List MeshVertex :=
  [t.v0, t.v1, t.v2]

/-- `PDF3D_U3D_MeshGeometry`: attribute arrays and triangles.  The
`isEmpty` test and the shading-id→shader-name table are computed by the
external U3D decoder (`pdf3d_u3d.cpp`, outside the surveyed sources), so
they are carried here as data. -/
structure MeshGeometry where
  positions : List Vec3
  normals : List Vec3
  diffuseColors : List Vec4
  textureCoordinates : List Vec4
  triangles : List MeshTriangle
  shaderNames : Nat → String
  isEmptyFlag : Bool

/-- `getPosition` (the data source guarantees indices are in bounds). -/
def MeshGeometry.getPosition (g : MeshGeometry) (i : Nat) : Vec3 :=
  g.positions.getD i ⟨0, 0, 0⟩

/-- `getNormal`. -/
def MeshGeometry.getNormal (g : MeshGeometry) (i : Nat) : Vec3 :=
  g.normals.getD i ⟨0, 0, 0⟩

/-- `getDiffuseColor`. -/
def MeshGeometry.getDiffuseColor (g : MeshGeometry) (i : Nat) : Vec4 :=
  g.diffuseColors.getD i ⟨0, 0, 0, 0⟩

/-- `getTextureCoordinate`. -/
def MeshGeometry.getTextureCoordinate (g : MeshGeometry) (i : Nat) : Vec4 :=
  g.textureCoordinates.getD i ⟨0, 0, 0, 0⟩

/-- `getTriangleCount`. -/
def MeshGeometry.getTriangleCount (g : MeshGeometry) : Nat :=
  g.triangles.length

/-- A point of a point set (`PDF3D_U3D_PointSetGeometry::Point`). -/
structure PointSetPoint where
  position : Nat
  diffuseColor : Nat
  deriving DecidableEq, Repr

/-- `PDF3D_U3D_PointSetGeometry`. -/
structure PointSetGeometry where
  positions : List Vec3
  diffuseColors : List Vec4
  points : List PointSetPoint
  isEmptyFlag : Bool

/-- `getDiffuseColor` of a point set. -/
def PointSetGeometry.getDiffuseColor (g : PointSetGeometry) (i : Nat) : Vec4 :=
  g.diffuseColors.getD i ⟨0, 0, 0, 0⟩

/-- Modelled from the spec: `queryPointsByVertexIndex`, whose
implementation lives in the external decoder (`pdf3d_u3d.cpp`), is the
lookup "points touching vertex index v" — the points whose position
index equals `i`, in point-list order. -/
def PointSetGeometry.queryPointsByVertexIndex (g : PointSetGeometry) (i : Nat) :
    List PointSetPoint :=
  g.points.filter (fun p => p.position == i)

/-- A line of a line set (`PDF3D_U3D_LineSetGeometry::Line`). -/
structure LineSetLine where
  position1 : Nat
  position2 : Nat
  diffuseColor1 : Nat
  diffuseColor2 : Nat
  shadingId : Nat
  deriving DecidableEq, Repr

/-- `PDF3D_U3D_LineSetGeometry`. -/
structure LineSetGeometry where
  positions : List Vec3
  diffuseColors : List Vec4
  lines : List LineSetLine
  shaderNames : Nat → String
  isEmptyFlag : Bool

/-- `getPosition` of a line set. -/
def LineSetGeometry.getPosition (g : LineSetGeometry) (i : Nat) : Vec3 :=
  g.positions.getD i ⟨0, 0, 0⟩

/-- `getDiffuseColor` of a line set. -/
def LineSetGeometry.getDiffuseColor (g : LineSetGeometry) (i : Nat) : Vec4 :=
  g.diffuseColors.getD i ⟨0, 0, 0, 0⟩

/-- `getLineCount`. -/
def LineSetGeometry.getLineCount (g : LineSetGeometry) : Nat :=
  g.lines.length

/-- Modelled from the spec: `queryLinesByVertexIndex`, whose
implementation lives in the external decoder (`pdf3d_u3d.cpp`), is the
lookup "lines touching vertex index v" — the lines having `i` as one of
their two position indices, in line-list order. -/
def LineSetGeometry.queryLinesByVertexIndex (g : LineSetGeometry) (i : Nat) :
    List LineSetLine :=
  g.lines.filter (fun l => l.position1 == i || l.position2 == i)

/-- The geometry variant handed out by `getGeometry`, classified the way
`createModelNode` classifies it (`asMeshGeometry` / `asPointSetGeometry`
/ `asLineSetGeometry`). -/
inductive U3DGeometry where
  | mesh (g : MeshGeometry)
  | pointSet (g : PointSetGeometry)
  | lineSet (g : LineSetGeometry)

/-- `PDF3D_U3D_Light` type tag. -/
inductive U3DLightType where
  | ambient
  | directional
  | point
  | spot
  deriving DecidableEq, Repr

/-- `PDF3D_U3D_Light`: type, color, intensity, attenuation triple and
spot cutoff angle. -/
structure U3DLight where
  lightType : U3DLightType
  color : QColor
  intensity : ℚ
  attenuation : Vec3
  spotAngle : ℚ
  deriving DecidableEq, Repr

/-- One texture binding of a shader
(`PDF3D_U3D_Shader::PDF_U3D_TextureInfo`). -/
structure TextureInfo where
  textureName : String
  deriving DecidableEq, Repr

/-- The U3D shader's alpha-test comparison function enum. -/
inductive AlphaTestFunction where
  | NEVER
  | LESS
  | GREATER
  | EQUAL
  | NOT_EQUAL
  | LEQUAL
  | GEQUAL
  | ALWAYS
  deriving DecidableEq, Repr

/-- `PDF3D_U3D_Shader`. -/
structure U3DShader where
  textureInfos : List TextureInfo
  useVertexColor : Bool
  alphaTestEnabled : Bool
  alphaTestFunction : AlphaTestFunction
  alphaTestReference : ℚ
  materialName : String
  deriving DecidableEq, Repr

/-- `PDF3D_U3D_Material`: ambient/diffuse/specular colors. -/
structure U3DMaterial where
  ambientColor : QColor
  diffuseColor : QColor
  specularColor : QColor
  deriving DecidableEq, Repr

/-- The read-only model-data source (`PDF3D_U3D`), an immutable
name-indexed store.  `getGeometry`/`getLight` return null pointers for
missing resources (the processor checks them); `getNode`, `getShader`,
`getMaterial` and `getTexture` are dereferenced unconditionally by the
processor, so they are modelled as total. -/
structure SceneData where
  getNode : String → U3DNode
  getGeometry : String → Option U3DGeometry
  getLight : String → Option U3DLight
  getShader : String → U3DShader
  getMaterial : String → U3DMaterial
  getTexture : String → QImage

/-- Qt3D's default attribute name for positions
(`QAttribute::defaultPositionAttributeName`). -/
def defaultPositionAttributeName : String := "vertexPosition"

/-- Qt3D's default attribute name for normals. -/
def defaultNormalAttributeName : String := "vertexNormal"

/-- Qt3D's default attribute name for colors. -/
def defaultColorAttributeName : String := "vertexColor"

/-- Qt3D's default attribute name for texture coordinates. -/
def defaultTextureCoordinateAttributeName : String := "vertexTexCoord"

/-- A vertex attribute (`Qt3DRender::QAttribute` of vertex kind): its
name, component count (`setVertexSize`/`setDataSize`), byte offset, byte
stride, element count, and the float contents of the `QBuffer` it points
into. -/
structure Attribute where
  name : String
  vertexSize : Nat
  byteOffset : Nat
  byteStride : Nat
  count : Nat
  buffer : List ℚ
  deriving DecidableEq, Repr

/-- An index attribute (`QAttribute` of index kind, `UnsignedInt`):
element count and the contents of its index buffer. -/
structure IndexAttribute where
  count : Nat
  buffer : List Nat
  deriving DecidableEq, Repr

/-- `QGeometryRenderer::PrimitiveType` values used by the processor. -/
inductive PrimitiveType where
  | points
  | lines
  | triangles
  deriving DecidableEq, Repr

/-- A geometry renderer: primitive type, vertex attributes in the order
they are added, and the optional index attribute. -/
structure GeometryRenderer where
  primitiveType : PrimitiveType
  attributes : List Attribute
  indexAttribute : Option IndexAttribute
  deriving DecidableEq, Repr

/-- A render state added to every render pass of a material's effect. -/
inductive RenderState where
  | pointSizeFixed (value : ℚ)
  | cullFaceNone
  | alphaTestState (fn : AlphaTestFunction) (reference : ℚ)
  deriving DecidableEq, Repr

/-- The diffuse property of a `QDiffuseSpecularMaterial`: either a plain
color or a texture. -/
inductive DiffuseValue where
  | colorValue (c : QColor)
  | textureValue (image : QImage)
  deriving DecidableEq, Repr

/-- A material description: either a `QDiffuseSpecularMaterial` with its
ambient/diffuse/specular settings and alpha-blending flag, or a
`QPerVertexColorMaterial`; both carry the render states added to their
effect's passes. -/
inductive Material where
  | diffuseSpecular (ambient : QColor) (diffuse : DiffuseValue) (specular : QColor)
      (alphaBlendingEnabled : Bool) (renderStates : List RenderState)
  | perVertexColor (renderStates : List RenderState)
  deriving DecidableEq, Repr

/-- Adding a render state to every pass of a material's effect. -/
def Material.addRenderState : Material → RenderState → Material
  | .diffuseSpecular amb dif spec blend states, rs =>
      .diffuseSpecular amb dif spec blend (states ++ [rs])
  | .perVertexColor states, rs => .perVertexColor (states ++ [rs])

/-- A light component attached to an entity. -/
inductive LightComponent where
  | directionalLight (color : QColor) (intensity : ℚ)
  | pointLight (color : QColor) (intensity : ℚ)
      (constantAtt linearAtt quadraticAtt : ℚ)
  | spotLight (color : QColor) (intensity : ℚ)
      (constantAtt linearAtt quadraticAtt : ℚ) (cutOffAngle : ℚ)
  deriving DecidableEq, Repr

/-- A component of a produced entity (`addComponent`). -/
inductive Component where
  | transformComponent (matrix : Mat4)
  | rendererComponent (renderer : GeometryRenderer)
  | materialComponent (material : Material)
  | lightComponent (light : LightComponent)
  deriving DecidableEq, Repr

/-- A node of the produced Qt3D tree: `QNode` (structural, `isEntity =
false`) or `QEntity` with components; children in attachment order. -/
inductive SceneNode where
  | mk (isEntity : Bool) (objectName : String) (components : List Component)
      (children : List SceneNode)

/-- `setObjectName`. -/
def SceneNode.setObjectName : SceneNode → String → SceneNode
  | .mk e _ cs ch, name => .mk e name cs ch

/-- Attaching further children (`setParent` of each child onto this
node, in order). -/
def SceneNode.addChildren : SceneNode → List SceneNode → SceneNode
  | .mk e nm cs ch, more => .mk e nm cs (ch ++ more)

/-- The node's object name. -/
def SceneNode.objectName : SceneNode → String
  | .mk _ nm _ _ => nm

/-- The node's components. -/
def SceneNode.components : SceneNode → List Component
  | .mk _ _ cs _ => cs

/-- The node's children. -/
def SceneNode.childList : SceneNode → List SceneNode
  | .mk _ _ _ ch => ch

/-- The mutable configuration and state of `PDF3DSceneProcessor`:
visualization mode, style parameters, root name, the running ambient
accumulator, the memo of processed node names and the model-data
source. -/
structure Processor where
  mode : SceneMode
  auxiliaryColor : QColor
  faceColor : QColor
  opacity : ℚ
  creaseAngle : ℚ
  pointSize : ℚ
  sceneRoot : String
  globalAmbientColor : QColor
  processedNodes : List String
  sceneData : SceneData

/-- `getMode`. -/
def Processor.getMode (P : Processor) : SceneMode := P.mode

/-- `setMode`. -/
def Processor.setMode (P : Processor) (m : SceneMode) : Processor := { P with mode := m }

/-- `getAuxiliaryColor`. -/
def Processor.getAuxiliaryColor (P : Processor) : QColor := P.auxiliaryColor

/-- `setAuxiliaryColor`. -/
def Processor.setAuxiliaryColor (P : Processor) (c : QColor) : Processor :=
  { P with auxiliaryColor := c }

/-- `getFaceColor`. -/
def Processor.getFaceColor (P : Processor) : QColor := P.faceColor

/-- `setFaceColor`. -/
def Processor.setFaceColor (P : Processor) (c : QColor) : Processor :=
  { P with faceColor := c }

/-- `getOpacity`. -/
def Processor.getOpacity (P : Processor) : ℚ := P.opacity

/-- `setOpacity`. -/
def Processor.setOpacity (P : Processor) (v : ℚ) : Processor := { P with opacity := v }

/-- `getCreaseAngle`. -/
def Processor.getCreaseAngle (P : Processor) : ℚ := P.creaseAngle

/-- `setCreaseAngle`. -/
def Processor.setCreaseAngle (P : Processor) (v : ℚ) : Processor :=
  { P with creaseAngle := v }

/-- `getSceneRoot`. -/
def Processor.getSceneRoot (P : Processor) : String := P.sceneRoot

/-- `setSceneRoot`. -/
def Processor.setSceneRoot (P : Processor) (s : String) : Processor :=
  { P with sceneRoot := s }

/-- `getPointSize`. -/
def Processor.getPointSize (P : Processor) : ℚ := P.pointSize

/-- `setPointSize`. -/
def Processor.setPointSize (P : Processor) (v : ℚ) : Processor :=
  { P with pointSize := v }

/-- Flattening a list of `Vec3` into consecutive floats, the way the
buffer-filling loops write `x`, `y`, `z` per element. -/
def flattenVec3 (vs : List Vec3) : List ℚ :=
  vs.flatMap (fun v => [v.x, v.y, v.z])

/-- `createGenericAttribute(values)`: a float attribute of vertex size 3
with byte stride `3 * sizeof(float)`, offset 0 and one element per
value, over a buffer holding the flattened components. -/
def createGenericAttribute (values : List Vec3) : Attribute :=
  { name := ""
    vertexSize := 3
    byteOffset := 0
    byteStride := 3 * 4
    count := values.length
    buffer := flattenVec3 values }

/-- `createPositionAttribute`. -/
def createPositionAttribute (positions : List Vec3) : Attribute :=
  { createGenericAttribute positions with name := defaultPositionAttributeName }

/-- `createNormalAttribute`. -/
def createNormalAttribute (normals : List Vec3) : Attribute :=
  { createGenericAttribute normals with name := defaultNormalAttributeName }

/-- `createColorAttribute`. -/
def createColorAttribute (colors : List Vec3) : Attribute :=
  { createGenericAttribute colors with name := defaultColorAttributeName }

/-- `createVertexGeometry(positions)`: a point-primitive entity over the
raw positions, with the auxiliary color as ambient, transparent diffuse
and specular, and a fixed point size render state from the style. -/
def createVertexGeometry (P : Processor) (positions : List Vec3) : SceneNode :=
  let renderer : GeometryRenderer :=
    { primitiveType := .points
      attributes := [createPositionAttribute positions]
      indexAttribute := none }
  let material : Material :=
    .diffuseSpecular P.getAuxiliaryColor (.colorValue transparentColor)
      transparentColor false [.pointSizeFixed P.pointSize]
  .mk true "" [.rendererComponent renderer, .materialComponent material] []

/-- The 8 corners of a box in the fixed numbering used by
`createBoundingBoxWireGeometry` and `createBoundingBoxTransparentGeometry`:
the low-Z face (min,min,min), (max,min,min), (max,max,min), (min,max,min),
then the same ordering at max-Z. -/
def boxCorners (mn mx : Vec3) : List Vec3 :=
  [⟨mn.x, mn.y, mn.z⟩, ⟨mx.x, mn.y, mn.z⟩, ⟨mx.x, mx.y, mn.z⟩, ⟨mn.x, mx.y, mn.z⟩,
   ⟨mn.x, mn.y, mx.z⟩, ⟨mx.x, mn.y, mx.z⟩, ⟨mx.x, mx.y, mx.z⟩, ⟨mn.x, mx.y, mx.z⟩]

/-- The 24 line-list indices of the wire box: the low-Z ring, the high-Z
ring, and the 4 vertical edges. -/
def wireBoxIndices : List Nat :=
  [0, 1, 1, 2, 2, 3, 3, 0, 4, 5, 5, 6, 6, 7, 7, 4, 0, 4, 1, 5, 2, 6, 3, 7]

/-- The 36 triangle-list indices of the solid box: bottom, top and the
four sides, two triangles each. -/
def solidBoxIndices : List Nat :=
  [0, 1, 2, 2, 3, 0,
   4, 5, 6, 6, 7, 4,
   0, 1, 5, 0, 4, 5,
   1, 2, 6, 1, 5, 6,
   2, 3, 7, 2, 6, 7,
   3, 0, 4, 3, 7, 4]

/-- `createBoundingBoxWireGeometry`: a 12-edge line-list entity over the
8 corners, ambient = auxiliary color, diffuse and specular
transparent. -/
def createBoundingBoxWireGeometry (P : Processor) (bb : PDF3DBoundingBox) : SceneNode :=
  let positions := boxCorners bb.getMin bb.getMax
  let positionAttribute : Attribute :=
    { name := defaultPositionAttributeName
      vertexSize := 3
      byteOffset := 0
      byteStride := 3 * 4
      count := positions.length
      buffer := flattenVec3 positions }
  let indexAttribute : IndexAttribute :=
    { count := 2 * (wireBoxIndices.length / 2), buffer := wireBoxIndices }
  let renderer : GeometryRenderer :=
    { primitiveType := .lines
      attributes := [positionAttribute]
      indexAttribute := some indexAttribute }
  let material : Material :=
    .diffuseSpecular P.getAuxiliaryColor (.colorValue transparentColor)
      transparentColor false []
  .mk true "" [.rendererComponent renderer, .materialComponent material] []

/-- `createBoundingBoxTransparentGeometry`: a 12-triangle solid box whose
faces carry the auxiliary color with the style's opacity as alpha, alpha
blending enabled and back-face culling turned off. -/
def createBoundingBoxTransparentGeometry (P : Processor) (bb : PDF3DBoundingBox) : SceneNode :=
  let positions := boxCorners bb.getMin bb.getMax
  let positionAttribute : Attribute :=
    { name := defaultPositionAttributeName
      vertexSize := 3
      byteOffset := 0
      byteStride := 3 * 4
      count := positions.length
      buffer := flattenVec3 positions }
  let indexAttribute : IndexAttribute :=
    { count := 3 * (solidBoxIndices.length / 3), buffer := solidBoxIndices }
  let renderer : GeometryRenderer :=
    { primitiveType := .triangles
      attributes := [positionAttribute]
      indexAttribute := some indexAttribute }
  let color : QColor := { P.getAuxiliaryColor with a := P.getOpacity }
  let material : Material :=
    .diffuseSpecular transparentColor (.colorValue color) transparentColor true
      [.cullFaceNone]
  .mk true "" [.rendererComponent renderer, .materialComponent material] []

/-- The translation of the shader's alpha-test function enum to the
render state's function, one-to-one (`createMaterialFromShader`'s
switch). -/
def mapAlphaTestFunction : AlphaTestFunction → AlphaTestFunction :=
  fun fn => fn

/-- `createMaterialFromShader(shaderName, forceUseVertexColors)`: with no
texture bindings, either a per-vertex-color material (vertex color
requested or forced) or a flat material from the referenced `Material`
resource with alpha blending iff alpha test is enabled; with texture
bindings, a textured material from the first binding.  When alpha test
is enabled, an alpha-test render state with the shader's function and
reference value is added to every pass. -/
def createMaterialFromShader (P : Processor) (shaderName : String)
    (forceUseVertexColors : Bool) : Material :=
  let shader := P.sceneData.getShader shaderName
  let base : Material :=
    match shader.textureInfos with
    | [] =>
      if shader.useVertexColor || forceUseVertexColors then
        .perVertexColor []
      else
        let u3dMaterial := P.sceneData.getMaterial shader.materialName
        .diffuseSpecular u3dMaterial.ambientColor
          (.colorValue u3dMaterial.diffuseColor) u3dMaterial.specularColor
          shader.alphaTestEnabled []
    | textureInfo :: _ =>
      let image := P.sceneData.getTexture textureInfo.textureName
      .diffuseSpecular transparentColor (.textureValue image) transparentColor
        shader.alphaTestEnabled []
  if shader.alphaTestEnabled then
    base.addRenderState
      (.alphaTestState (mapAlphaTestFunction shader.alphaTestFunction)
        shader.alphaTestReference)
  else
    base

/-- `sizeof(float)`-based layout of the solid mesh vertex:
`(3 + 3 + 4 + 2) * sizeof(float)` bytes of stride. -/
def solidStride : Nat := (3 + 3 + 4 + 2) * 4

/-- Byte offset of the position part of a solid mesh vertex. -/
def solidPositionByteOffset : Nat := 0

/-- Byte offset of the normal part. -/
def solidNormalByteOffset : Nat := solidPositionByteOffset + 3 * 4

/-- Byte offset of the diffuse-color part. -/
def solidColorByteOffset : Nat := solidNormalByteOffset + 3 * 4

/-- Byte offset of the texture-coordinate part. -/
def solidTextureByteOffset : Nat := solidColorByteOffset + 4 * 4

/-- The 12 floats written for one vertex of a solid mesh: position(3),
normal(3), diffuse color(4), texture coordinate(2). -/
def solidVertexFloats (g : MeshGeometry) (v : MeshVertex) : List ℚ :=
  let position := g.getPosition v.positionIndex
  let normal := g.getNormal v.normalIndex
  let diffuseColor := g.getDiffuseColor v.diffuseColorIndex
  let textureCoordinate := g.getTextureCoordinate v.textureCoordIndex
  [position.x, position.y, position.z,
   normal.x, normal.y, normal.z,
   diffuseColor.x, diffuseColor.y, diffuseColor.z, diffuseColor.w,
   textureCoordinate.x, textureCoordinate.y]

/-- The interleaved vertex buffer of the solid mesh encoding: for every
triangle, for each of its three vertices, the 12 floats of
`solidVertexFloats`. -/
def solidVertexBuffer (g : MeshGeometry) : List ℚ :=
  g.triangles.flatMap (fun t => t.verticesList.flatMap (solidVertexFloats g))

/-- The 6 line-list indices a wireframe mesh triangle contributes: its
three edges (v0,v1), (v1,v2), (v2,v0). -/
def wireframeTriangleIndices (t : MeshTriangle) : List Nat :=
  [t.v0.positionIndex, t.v1.positionIndex,
   t.v1.positionIndex, t.v2.positionIndex,
   t.v2.positionIndex, t.v0.positionIndex]

/-- `createMeshGeometry(meshGeometry)`: dispatch on the mode; the second
component records whether the fatal `Q_ASSERT(false)` of the default
branch was reached (the unimplemented modes listed at source lines
621–633 fall through to it, after which the function returns null). -/
def createMeshGeometry (P : Processor) (g : MeshGeometry) : Option SceneNode × Bool :=
  if g.isEmptyFlag then
    (none, false)
  else
    match P.mode with
    | .boundingBox =>
      match PDF3DBoundingBox.getBoundingBox g.positions with
      | .emptyBox => (none, false)
      | .box mn mx => (some (createBoundingBoxWireGeometry P (.box mn mx)), false)
    | .transparentBoundingBox =>
      match PDF3DBoundingBox.getBoundingBox g.positions with
      | .emptyBox => (none, false)
      | .box mn mx => (some (createBoundingBoxTransparentGeometry P (.box mn mx)), false)
    | .transparentBoundingBoxOutline =>
      match PDF3DBoundingBox.getBoundingBox g.positions with
      | .emptyBox => (none, false)
      | .box mn mx =>
        (some (.mk false "" []
          [createBoundingBoxWireGeometry P (.box mn mx),
           createBoundingBoxTransparentGeometry P (.box mn mx)]), false)
    | .wireframe =>
      let positionAttribute := createPositionAttribute g.positions
      let lineCount := g.getTriangleCount * 3
      let indexAttribute : IndexAttribute :=
        { count := 2 * lineCount
          buffer := g.triangles.flatMap wireframeTriangleIndices }
      let renderer : GeometryRenderer :=
        { primitiveType := .lines
          attributes := [positionAttribute]
          indexAttribute := some indexAttribute }
      let material : Material :=
        .diffuseSpecular P.getAuxiliaryColor (.colorValue transparentColor)
          transparentColor false []
      (some (.mk true "" [.rendererComponent renderer, .materialComponent material] []),
       false)
    | .vertices => (some (createVertexGeometry P g.positions), false)
    | .solid =>
      let triangleCount := g.getTriangleCount
      let vertexBuffer := solidVertexBuffer g
      let positionAttribute : Attribute :=
        { name := defaultPositionAttributeName, vertexSize := 3
          byteOffset := solidPositionByteOffset, byteStride := solidStride
          count := triangleCount * 3, buffer := vertexBuffer }
      let normalAttribute : Attribute :=
        { name := defaultNormalAttributeName, vertexSize := 3
          byteOffset := solidNormalByteOffset, byteStride := solidStride
          count := triangleCount * 3, buffer := vertexBuffer }
      let colorAttribute : Attribute :=
        { name := defaultColorAttributeName, vertexSize := 4
          byteOffset := solidColorByteOffset, byteStride := solidStride
          count := triangleCount * 3, buffer := vertexBuffer }
      let textureAttribute : Attribute :=
        { name := defaultTextureCoordinateAttributeName, vertexSize := 2
          byteOffset := solidTextureByteOffset, byteStride := solidStride
          count := triangleCount * 3, buffer := vertexBuffer }
      let renderer : GeometryRenderer :=
        { primitiveType := .triangles
          attributes := [positionAttribute, normalAttribute, colorAttribute,
            textureAttribute]
          indexAttribute := none }
      let material := createMaterialFromShader P (g.shaderNames 0) false
      (some (.mk true "" [.rendererComponent renderer, .materialComponent material] []),
       false)
    | .illustration | .shadedIllustration | .shadedWireframe | .hiddenWireframe
    | .solidOutline | .transparent | .transparentWireframe | .solidWireframe
    | .shadedVertices =>
      (none, true)

/-- `createPointSetGeometry(pointSetGeometry)`: dispatch on the mode.
All 15 modes are covered by the source's switch, so the fatal default
branch is unreachable and the second component is always `false`. -/
def createPointSetGeometry (P : Processor) (g : PointSetGeometry) :
    Option SceneNode × Bool :=
  if g.isEmptyFlag then
    (none, false)
  else
    match P.mode with
    | .boundingBox =>
      match PDF3DBoundingBox.getBoundingBox g.positions with
      | .emptyBox => (none, false)
      | .box mn mx => (some (createBoundingBoxWireGeometry P (.box mn mx)), false)
    | .transparentBoundingBox =>
      match PDF3DBoundingBox.getBoundingBox g.positions with
      | .emptyBox => (none, false)
      | .box mn mx => (some (createBoundingBoxTransparentGeometry P (.box mn mx)), false)
    | .transparentBoundingBoxOutline =>
      match PDF3DBoundingBox.getBoundingBox g.positions with
      | .emptyBox => (none, false)
      | .box mn mx =>
        (some (.mk false "" []
          [createBoundingBoxWireGeometry P (.box mn mx),
           createBoundingBoxTransparentGeometry P (.box mn mx)]), false)
    | .illustration | .shadedIllustration | .wireframe | .vertices =>
      (some (createVertexGeometry P g.positions), false)
    | .shadedWireframe | .hiddenWireframe | .solidOutline | .transparent
    | .transparentWireframe | .solid | .solidWireframe | .shadedVertices =>
      let positionAttribute := createPositionAttribute g.positions
      let positionCount := positionAttribute.count
      let colorBuffer := (List.range positionCount).flatMap (fun i =>
        let points := g.queryPointsByVertexIndex i
        let color : Vec3 :=
          match points with
          | [] => ⟨0, 0, 0⟩
          | point :: _ => (g.getDiffuseColor point.diffuseColor).toVector3D
        [color.x, color.y, color.z])
      let colorAttribute : Attribute :=
        { name := defaultColorAttributeName
          vertexSize := 3
          byteOffset := 0
          byteStride := 3 * 4
          count := positionCount
          buffer := colorBuffer }
      let renderer : GeometryRenderer :=
        { primitiveType := .points
          attributes := [positionAttribute, colorAttribute]
          indexAttribute := none }
      let material : Material := .perVertexColor [.pointSizeFixed P.pointSize]
      (some (.mk true "" [.rendererComponent renderer, .materialComponent material] []),
       false)

/-- One step of filling `std::map<uint32_t, std::vector<Line>>
shadingIdToLines`: `shadingIdToLines[line.shadingId].push_back(line)` on
an association list kept sorted by key, the map's iteration order. -/
def insertByShadingId (m : List (Nat × List LineSetLine)) (line : LineSetLine) :
    List (Nat × List LineSetLine) :=
  match m with
  | [] => [(line.shadingId, [line])]
  | (k, ls) :: rest =>
    if line.shadingId < k then
      (line.shadingId, [line]) :: (k, ls) :: rest
    else if line.shadingId = k then
      (k, ls ++ [line]) :: rest
    else
      (k, ls) :: insertByShadingId rest line

/-- The `shadingIdToLines` map after inserting all lines in order. -/
def shadingIdToLines (lines : List LineSetLine) : List (Nat × List LineSetLine) :=
  lines.foldl insertByShadingId []

/-- The body of the per-partition loop of `createLineSetGeometry`'s
solid/shaded branch: one line-list entity whose position and color
attributes hold both endpoints of every line of the partition, with a
material resolved from the partition's shading id (vertex colors
forced). -/
def lineSetShadingUnit (P : Processor) (g : LineSetGeometry) (shadingId : Nat)
    (lines : List LineSetLine) : SceneNode :=
  let positions := lines.flatMap (fun line =>
    [g.getPosition line.position1, g.getPosition line.position2])
  let colors := lines.flatMap (fun line =>
    [(g.getDiffuseColor line.diffuseColor1).toVector3D,
     (g.getDiffuseColor line.diffuseColor2).toVector3D])
  let positionAttribute := createPositionAttribute positions
  let colorAttribute := createColorAttribute colors
  let renderer : GeometryRenderer :=
    { primitiveType := .lines
      attributes := [positionAttribute, colorAttribute]
      indexAttribute := none }
  let material := createMaterialFromShader P (g.shaderNames shadingId) true
  .mk true "" [.rendererComponent renderer, .materialComponent material] []

/-- `createLineSetGeometry(lineSetGeometry)`: dispatch on the mode.  All
15 modes are covered by the source's switch, so the fatal default branch
is unreachable and the second component is always `false`. -/
def createLineSetGeometry (P : Processor) (g : LineSetGeometry) :
    Option SceneNode × Bool :=
  if g.isEmptyFlag then
    (none, false)
  else
    match P.mode with
    | .boundingBox =>
      match PDF3DBoundingBox.getBoundingBox g.positions with
      | .emptyBox => (none, false)
      | .box mn mx => (some (createBoundingBoxWireGeometry P (.box mn mx)), false)
    | .transparentBoundingBox =>
      match PDF3DBoundingBox.getBoundingBox g.positions with
      | .emptyBox => (none, false)
      | .box mn mx => (some (createBoundingBoxTransparentGeometry P (.box mn mx)), false)
    | .transparentBoundingBoxOutline =>
      match PDF3DBoundingBox.getBoundingBox g.positions with
      | .emptyBox => (none, false)
      | .box mn mx =>
        (some (.mk false "" []
          [createBoundingBoxWireGeometry P (.box mn mx),
           createBoundingBoxTransparentGeometry P (.box mn mx)]), false)
    | .illustration | .shadedIllustration | .wireframe =>
      let positionAttribute := createPositionAttribute g.positions
      let lineCount := g.getLineCount
      let indexAttribute : IndexAttribute :=
        { count := 2 * lineCount
          buffer := g.lines.flatMap (fun line => [line.position1, line.position2]) }
      let renderer : GeometryRenderer :=
        { primitiveType := .lines
          attributes := [positionAttribute]
          indexAttribute := some indexAttribute }
      let material : Material :=
        .diffuseSpecular P.getAuxiliaryColor (.colorValue transparentColor)
          transparentColor false []
      (some (.mk true "" [.rendererComponent renderer, .materialComponent material] []),
       false)
    | .shadedWireframe | .hiddenWireframe | .solidOutline | .transparent
    | .transparentWireframe | .solid | .solidWireframe =>
      let entities :=
        (shadingIdToLines g.lines).map (fun item => lineSetShadingUnit P g item.1 item.2)
      match entities with
      | [entity] => (some entity, false)
      | _ => (some (.mk true "" [] entities), false)
    | .vertices => (some (createVertexGeometry P g.positions), false)
    | .shadedVertices =>
      let positionAttribute := createPositionAttribute g.positions
      let positionCount := positionAttribute.count
      let colorBuffer := (List.range positionCount).flatMap (fun i =>
        let lines := g.queryLinesByVertexIndex i
        let color : Vec3 :=
          match lines with
          | [] => ⟨0, 0, 0⟩
          | line :: _ =>
            let color₀ : Vec3 := ⟨0, 0, 0⟩
            let color₁ :=
              if line.position1 = i then
                (g.getDiffuseColor line.diffuseColor1).toVector3D
              else color₀
            let color₂ :=
              if line.position2 = i then
                (g.getDiffuseColor line.diffuseColor2).toVector3D
              else color₁
            color₂
        [color.x, color.y, color.z])
      let colorAttribute : Attribute :=
        { name := defaultColorAttributeName
          vertexSize := 3
          byteOffset := 0
          byteStride := 3 * 4
          count := positionCount
          buffer := colorBuffer }
      let renderer : GeometryRenderer :=
        { primitiveType := .points
          attributes := [positionAttribute, colorAttribute]
          indexAttribute := none }
      let material : Material := .perVertexColor [.pointSizeFixed P.pointSize]
      (some (.mk true "" [.rendererComponent renderer, .materialComponent material] []),
       false)

/-- The ambient-light contribution (`createLightNode`'s Ambient case):
`color * intensity` added componentwise onto the running accumulator's
red/green/blue channels; alpha is untouched. -/
def ambientLightStep (ambient : QColor) (light : U3DLight) : QColor :=
  { ambient with
      r := ambient.r + light.color.r * light.intensity
      g := ambient.g + light.color.g * light.intensity
      b := ambient.b + light.color.b * light.intensity }

/-- `createLightNode(node)`: resolve the node's light resource; Ambient
lights only update the accumulator and yield no node, the other types
yield an entity with the corresponding light component.  The updated
accumulator is returned alongside. -/
def createLightNode (P : Processor) (ambient : QColor) (node : U3DNode) :
    Option SceneNode × QColor :=
  match P.sceneData.getLight node.resourceName with
  | none => (none, ambient)
  | some light =>
    match light.lightType with
    | .ambient => (none, ambientLightStep ambient light)
    | .directional =>
      (some (.mk true "" [.lightComponent (.directionalLight light.color light.intensity)] []),
       ambient)
    | .point =>
      (some (.mk true ""
        [.lightComponent (.pointLight light.color light.intensity
          light.attenuation.x light.attenuation.y light.attenuation.z)] []),
       ambient)
    | .spot =>
      (some (.mk true ""
        [.lightComponent (.spotLight light.color light.intensity
          light.attenuation.x light.attenuation.y light.attenuation.z
          light.spotAngle)] []),
       ambient)

/-- `createModelNode(node)`: resolve the node's geometry resource,
dispatch on its kind, and tag a produced node with the source node's
name.  A missing resource yields no node.  The second component records
whether a fatal assertion was reached inside the geometry encoder. -/
def createModelNode (P : Processor) (node : U3DNode) : Option SceneNode × Bool :=
  match P.sceneData.getGeometry node.resourceName with
  | none => (none, false)
  | some geometry =>
    let result :=
      match geometry with
      | .mesh g => createMeshGeometry P g
      | .pointSet g => createPointSetGeometry P g
      | .lineSet g => createLineSetGeometry P g
    (result.1.map (fun n => n.setObjectName node.nodeName), result.2)

/-- The transient per-build state threaded through the recursive visit:
the running ambient accumulator (`m_globalAmbientColor`) and whether a
fatal `Q_ASSERT(false)` was reached. -/
structure BuildSt where
  globalAmbientColor : QColor
  assertionFailed : Bool
  deriving DecidableEq, Repr

/-- Attaching one built child to its parent: with a per-child (non-
constant) transform on the parent, the child is wrapped in an
intermediate entity holding that child's matrix; otherwise it attaches
directly. -/
def attachChild (parent : U3DNode) (childName : String) (childNode : SceneNode) :
    SceneNode :=
  if parent.hasChildTransformFlag && !parent.hasConstantChildTransformFlag then
    .mk true "" [.transformComponent (parent.childTransform childName)] [childNode]
  else
    childNode

/-- The child loop of `createNode`: each named child is built
recursively; children that build to nothing are skipped without
interrupting their siblings; the rest are attached in order. -/
def processChildrenAux
    (recNode : U3DNode → BuildSt → Option (Option SceneNode × BuildSt))
    (getNode : String → U3DNode) (parent : U3DNode) :
    List String → BuildSt → Option (List SceneNode × BuildSt)
  | [], st => some ([], st)
  | childName :: rest, st =>
    match recNode (getNode childName) st with
    | none => none
    | some (childResult, st₁) =>
      match childResult with
      | none => processChildrenAux recNode getNode parent rest st₁
      | some childNode =>
        match processChildrenAux recNode getNode parent rest st₁ with
        | none => none
        | some (siblings, st₂) =>
          some (attachChild parent childName childNode :: siblings, st₂)

/-- `createNode(node)` with explicit fuel for the unbounded recursion of
the original (`none` = the recursion depth exceeded the fuel): dispatch
on the node type, drop the node (and, in the original control flow, its
children) when nothing was produced, otherwise tag it with the source
node's name and attach the recursively built children. -/
def createNodeFuel (P : Processor) :
    Nat → U3DNode → BuildSt → Option (Option SceneNode × BuildSt)
  | 0, _, _ => none
  | fuel + 1, node, st =>
    let processed : Option SceneNode × BuildSt :=
      match node.nodeType with
      | .unknown => (some (.mk false "" [] []), st)
      | .group =>
        if node.hasChildTransformFlag && node.hasConstantChildTransformFlag then
          (some (.mk true "" [.transformComponent node.constantChildTransform] []), st)
        else
          (some (.mk false "" [] []), st)
      | .model =>
        let r := createModelNode P node
        (r.1, { st with assertionFailed := st.assertionFailed || r.2 })
      | .light =>
        let r := createLightNode P st.globalAmbientColor node
        (r.1, { st with globalAmbientColor := r.2 })
      | .view => (none, st)
    match processed with
    | (none, st₁) => some (none, st₁)
    | (some produced, st₁) =>
      let named := produced.setObjectName node.nodeName
      match processChildrenAux (fun nd s => createNodeFuel P fuel nd s)
          P.sceneData.getNode node node.children st₁ with
      | none => none
      | some (childNodes, st₂) => some (some (named.addChildren childNodes), st₂)

/-- `createScene(sceneData)` with explicit fuel: clear the memo of
processed node names, then build the root node; the result pairs the
scene root (possibly absent) with the final transient state. -/
def createSceneFuel (P : Processor) (fuel : Nat) :
    Option (Option SceneNode × BuildSt) :=
  let cleared := { P with processedNodes := [] }
  createNodeFuel cleared fuel (cleared.sceneData.getNode cleared.sceneRoot)
    { globalAmbientColor := P.globalAmbientColor, assertionFailed := false }

/-! ### Bounding-box lemmas -/

theorem foldl_min_le_init (l : List ℚ) (a : ℚ) : l.foldl min a ≤ a := by
  induction l generalizing a with
  | nil => simp
  | cons x t ih => exact le_trans (ih (min a x)) (min_le_left a x)

theorem init_le_foldl_max (l : List ℚ) (a : ℚ) : a ≤ l.foldl max a := by
  induction l generalizing a with
  | nil => simp
  | cons x t ih => exact le_trans (le_max_left a x) (ih (max a x))

theorem foldl_min_le_mem (l : List ℚ) (a q : ℚ) (h : q ∈ l) : l.foldl min a ≤ q := by
  induction l generalizing a with
  | nil => cases h
  | cons x t ih =>
    rcases List.mem_cons.mp h with h | h
    · subst h
      exact le_trans (foldl_min_le_init t (min a q)) (min_le_right a q)
    · exact ih (min a x) h

theorem mem_le_foldl_max (l : List ℚ) (a q : ℚ) (h : q ∈ l) : q ≤ l.foldl max a := by
  induction l generalizing a with
  | nil => cases h
  | cons x t ih =>
    rcases List.mem_cons.mp h with h | h
    · subst h
      exact le_trans (le_max_right a q) (init_le_foldl_max t (max a q))
    · exact ih (max a x) h

theorem foldl_min_mem (l : List ℚ) (a : ℚ) : l.foldl min a ∈ a :: l := by
  induction l generalizing a with
  | nil => simp
  | cons x t ih =>
    rcases List.mem_cons.mp (ih (min a x)) with h | h
    · rcases min_choice a x with hc | hc
      · rw [List.foldl_cons, h, hc]; exact List.mem_cons_self _ _
      · rw [List.foldl_cons, h, hc]
        exact List.mem_cons_of_mem _ (List.mem_cons_self _ _)
    · exact List.mem_cons_of_mem _ (List.mem_cons_of_mem _ h)

theorem foldl_max_mem (l : List ℚ) (a : ℚ) : l.foldl max a ∈ a :: l := by
  induction l generalizing a with
  | nil => simp
  | cons x t ih =>
    rcases List.mem_cons.mp (ih (max a x)) with h | h
    · rcases max_choice a x with hc | hc
      · rw [List.foldl_cons, h, hc]; exact List.mem_cons_self _ _
      · rw [List.foldl_cons, h, hc]
        exact List.mem_cons_of_mem _ (List.mem_cons_self _ _)
    · exact List.mem_cons_of_mem _ (List.mem_cons_of_mem _ h)

theorem foldl_vmin_x (l : List Vec3) (a : Vec3) :
    (l.foldl vmin a).x = (l.map Vec3.x).foldl min a.x := by
  induction l generalizing a with
  | nil => rfl
  | cons v t ih => simpa [vmin] using ih (vmin a v)

theorem foldl_vmin_y (l : List Vec3) (a : Vec3) :
    (l.foldl vmin a).y = (l.map Vec3.y).foldl min a.y := by
  induction l generalizing a with
  | nil => rfl
  | cons v t ih => simpa [vmin] using ih (vmin a v)

theorem foldl_vmin_z (l : List Vec3) (a : Vec3) :
    (l.foldl vmin a).z = (l.map Vec3.z).foldl min a.z := by
  induction l generalizing a with
  | nil => rfl
  | cons v t ih => simpa [vmin] using ih (vmin a v)

theorem foldl_vmax_x (l : List Vec3) (a : Vec3) :
    (l.foldl vmax a).x = (l.map Vec3.x).foldl max a.x := by
  induction l generalizing a with
  | nil => rfl
  | cons v t ih => simpa [vmax] using ih (vmax a v)

theorem foldl_vmax_y (l : List Vec3) (a : Vec3) :
    (l.foldl vmax a).y = (l.map Vec3.y).foldl max a.y := by
  induction l generalizing a with
  | nil => rfl
  | cons v t ih => simpa [vmax] using ih (vmax a v)

theorem foldl_vmax_z (l : List Vec3) (a : Vec3) :
    (l.foldl vmax a).z = (l.map Vec3.z).foldl max a.z := by
  induction l generalizing a with
  | nil => rfl
  | cons v t ih => simpa [vmax] using ih (vmax a v)

instance : RightCommutative vmin :=
  ⟨fun b a₁ a₂ => by simp [vmin, min_right_comm]⟩

instance : RightCommutative vmax :=
  ⟨fun b a₁ a₂ => by simp [vmax, sup_right_comm]⟩

/-- The spec-side reading of "the min corner is the component-wise
minimum over all points": every component is attained by some point and
bounds every point from below. -/
def isCompMin (mn : Vec3) (points : List Vec3) : Prop :=
  (mn.x ∈ points.map Vec3.x ∧ mn.y ∈ points.map Vec3.y ∧ mn.z ∈ points.map Vec3.z) ∧
  ∀ q ∈ points, mn.x ≤ q.x ∧ mn.y ≤ q.y ∧ mn.z ≤ q.z

/-- The spec-side reading of "the max corner is the component-wise
maximum over all points". -/
def isCompMax (mx : Vec3) (points : List Vec3) : Prop :=
  (mx.x ∈ points.map Vec3.x ∧ mx.y ∈ points.map Vec3.y ∧ mx.z ∈ points.map Vec3.z) ∧
  ∀ q ∈ points, q.x ≤ mx.x ∧ q.y ≤ mx.y ∧ q.z ≤ mx.z

theorem foldl_min_mem_of_head (p : Vec3) (l : List Vec3)
    (f : Vec3 → ℚ) :
    ((p :: l).map f).foldl min (f p) ∈ (p :: l).map f := by
  rcases List.mem_cons.mp (foldl_min_mem ((p :: l).map f) (f p)) with h | h
  · rw [h]; exact List.mem_cons_self _ _
  · exact h

theorem foldl_max_mem_of_head (p : Vec3) (l : List Vec3)
    (f : Vec3 → ℚ) :
    ((p :: l).map f).foldl max (f p) ∈ (p :: l).map f := by
  rcases List.mem_cons.mp (foldl_max_mem ((p :: l).map f) (f p)) with h | h
  · rw [h]; exact List.mem_cons_self _ _
  · exact h

/-- C7: for every list of points, the computed bounding box is empty iff
the list is empty; otherwise its min corner is the component-wise
minimum and its max corner the component-wise maximum over all points
(hence min ≤ max component-wise, both equal the unique point of a
singleton, and the result is unchanged by permuting the points after the
first — a pure reduction seeded with the first point). -/
theorem claim_C7_boundingBox (points : List Vec3) :
    ((PDF3DBoundingBox.getBoundingBox points).isEmpty = true ↔ points = [])
    ∧ (points ≠ [] →
        ∃ mn mx, PDF3DBoundingBox.getBoundingBox points = .box mn mx
          ∧ isCompMin mn points ∧ isCompMax mx points
          ∧ mn.x ≤ mx.x ∧ mn.y ≤ mx.y ∧ mn.z ≤ mx.z)
    ∧ (∀ p, points = [p] → PDF3DBoundingBox.getBoundingBox points = .box p p)
    ∧ (∀ p l₁ l₂, points = p :: l₁ → l₁.Perm l₂ →
        PDF3DBoundingBox.getBoundingBox points =
          PDF3DBoundingBox.getBoundingBox (p :: l₂)) := by
  refine ⟨?_, ?_, ?_, ?_⟩
  · cases points with
    | nil => simp [PDF3DBoundingBox.getBoundingBox, PDF3DBoundingBox.isEmpty]
    | cons p l => simp [PDF3DBoundingBox.getBoundingBox, PDF3DBoundingBox.isEmpty]
  · intro hne
    match points with
    | [] => exact absurd rfl hne
    | p :: l =>
      refine ⟨(p :: l).foldl vmin p, (p :: l).foldl vmax p, rfl, ?_, ?_, ?_, ?_, ?_⟩
      · constructor
        · refine ⟨?_, ?_, ?_⟩
          · rw [foldl_vmin_x]; exact foldl_min_mem_of_head p l Vec3.x
          · rw [foldl_vmin_y]; exact foldl_min_mem_of_head p l Vec3.y
          · rw [foldl_vmin_z]; exact foldl_min_mem_of_head p l Vec3.z
        · intro q hq
          refine ⟨?_, ?_, ?_⟩
          · rw [foldl_vmin_x]
            exact foldl_min_le_mem _ _ _ (List.mem_map_of_mem Vec3.x hq)
          · rw [foldl_vmin_y]
            exact foldl_min_le_mem _ _ _ (List.mem_map_of_mem Vec3.y hq)
          · rw [foldl_vmin_z]
            exact foldl_min_le_mem _ _ _ (List.mem_map_of_mem Vec3.z hq)
      · constructor
        · refine ⟨?_, ?_, ?_⟩
          · rw [foldl_vmax_x]; exact foldl_max_mem_of_head p l Vec3.x
          · rw [foldl_vmax_y]; exact foldl_max_mem_of_head p l Vec3.y
          · rw [foldl_vmax_z]; exact foldl_max_mem_of_head p l Vec3.z
        · intro q hq
          refine ⟨?_, ?_, ?_⟩
          · rw [foldl_vmax_x]
            exact mem_le_foldl_max _ _ _ (List.mem_map_of_mem Vec3.x hq)
          · rw [foldl_vmax_y]
            exact mem_le_foldl_max _ _ _ (List.mem_map_of_mem Vec3.y hq)
          · rw [foldl_vmax_z]
            exact mem_le_foldl_max _ _ _ (List.mem_map_of_mem Vec3.z hq)
      · rw [foldl_vmin_x, foldl_vmax_x]
        exact le_trans (foldl_min_le_init _ _) (init_le_foldl_max _ _)
      · rw [foldl_vmin_y, foldl_vmax_y]
        exact le_trans (foldl_min_le_init _ _) (init_le_foldl_max _ _)
      · rw [foldl_vmin_z, foldl_vmax_z]
        exact le_trans (foldl_min_le_init _ _) (init_le_foldl_max _ _)
  · intro p hp
    subst hp
    simp [PDF3DBoundingBox.getBoundingBox, vmin, vmax]
  · intro p l₁ l₂ hp hperm
    subst hp
    show PDF3DBoundingBox.box ((p :: l₁).foldl vmin p) ((p :: l₁).foldl vmax p)
      = PDF3DBoundingBox.box ((p :: l₂).foldl vmin p) ((p :: l₂).foldl vmax p)
    rw [(hperm.cons p).foldl_eq p, (hperm.cons p).foldl_eq p]

/-- Witness for C7: the theorem applied to the concrete point list
`[(1,2,3), (0,5,1)]`, discharging its hypotheses there. -/
theorem claim_C7_boundingBox_witness :
    ∃ mn mx,
      PDF3DBoundingBox.getBoundingBox [⟨1, 2, 3⟩, ⟨0, 5, 1⟩] = .box mn mx
        ∧ isCompMin mn [⟨1, 2, 3⟩, ⟨0, 5, 1⟩]
        ∧ isCompMax mx [⟨1, 2, 3⟩, ⟨0, 5, 1⟩]
        ∧ mn.x ≤ mx.x ∧ mn.y ≤ mx.y ∧ mn.z ≤ mx.z :=
  (claim_C7_boundingBox [⟨1, 2, 3⟩, ⟨0, 5, 1⟩]).2.1 (by decide)

/-! ### Concrete fixtures used by witnesses and counterexamples -/

/-- A node with default field values. -/
def defaultU3DNode : U3DNode :=
  { nodeName := ""
    nodeType := .unknown
    children := []
    hasChildTransformFlag := false
    hasConstantChildTransformFlag := false
    constantChildTransform := []
    childTransform := fun _ => []
    resourceName := "" }

/-- A shader with default field values. -/
def defaultShader : U3DShader :=
  { textureInfos := []
    useVertexColor := false
    alphaTestEnabled := false
    alphaTestFunction := .NEVER
    alphaTestReference := 0
    materialName := "" }

/-- A material with default field values. -/
def defaultU3DMaterial : U3DMaterial :=
  ⟨transparentColor, transparentColor, transparentColor⟩

/-- A model-data source with no resources. -/
def baseSceneData : SceneData :=
  { getNode := fun _ => defaultU3DNode
    getGeometry := fun _ => none
    getLight := fun _ => none
    getShader := fun _ => defaultShader
    getMaterial := fun _ => defaultU3DMaterial
    getTexture := fun _ => ⟨0, 0, []⟩ }

/-- A processor with a red auxiliary color, a green face color and the
empty model source. -/
def baseProcessor : Processor :=
  { mode := .solid
    auxiliaryColor := ⟨1, 0, 0, 1⟩
    faceColor := ⟨0, 1, 0, 1⟩
    opacity := 1/2
    creaseAngle := 0
    pointSize := 1
    sceneRoot := "root"
    globalAmbientColor := ⟨0, 0, 0, 1⟩
    processedNodes := []
    sceneData := baseSceneData }

/-- A one-triangle mesh over three positions. -/
def oneTriangleMesh : MeshGeometry :=
  { positions := [⟨0, 0, 0⟩, ⟨1, 0, 0⟩, ⟨0, 1, 0⟩]
    normals := [⟨0, 0, 1⟩]
    diffuseColors := [⟨1, 0, 0, 1⟩]
    textureCoordinates := [⟨0, 0, 0, 0⟩, ⟨1, 0, 0, 0⟩, ⟨0, 1, 0, 0⟩]
    triangles := [⟨⟨0, 0, 0, 0⟩, ⟨1, 0, 0, 1⟩, ⟨2, 0, 0, 2⟩, false, false, false⟩]
    shaderNames := fun _ => "S"
    isEmptyFlag := false }

/-! ### C9: ambient light aggregation -/

/-- C9: aggregating an Ambient light produces no entity and adds
`color * intensity` componentwise onto the running ambient accumulator's
red/green/blue channels; aggregating two ambient contributions in either
order yields the same accumulated color (exactly, in the rational
model). -/
theorem claim_C9_ambientLight (P : Processor) (amb : QColor) (node : U3DNode)
    (light : U3DLight)
    (hres : P.sceneData.getLight node.resourceName = some light)
    (htype : light.lightType = .ambient) :
    createLightNode P amb node = (none, ambientLightStep amb light)
    ∧ (ambientLightStep amb light).r = amb.r + light.color.r * light.intensity
    ∧ (ambientLightStep amb light).g = amb.g + light.color.g * light.intensity
    ∧ (ambientLightStep amb light).b = amb.b + light.color.b * light.intensity
    ∧ (ambientLightStep amb light).a = amb.a
    ∧ ∀ l₁ l₂ : U3DLight,
        ambientLightStep (ambientLightStep amb l₁) l₂
          = ambientLightStep (ambientLightStep amb l₂) l₁ := by
  refine ⟨?_, rfl, rfl, rfl, rfl, ?_⟩
  · simp [createLightNode, hres, htype]
  · intro l₁ l₂
    simp only [ambientLightStep, QColor.mk.injEq]
    and_intros <;> ring_nf

/-- The ambient light fixture. -/
def ambientFixtureLight : U3DLight :=
  { lightType := .ambient
    color := ⟨1/2, 1/4, 1, 1⟩
    intensity := 2
    attenuation := ⟨0, 0, 0⟩
    spotAngle := 0 }

/-- The light node fixture referencing resource `L`. -/
def ambientFixtureNode : U3DNode :=
  { defaultU3DNode with nodeType := .light, resourceName := "L" }

/-- A processor whose model source resolves `L` to the ambient light. -/
def ambientFixtureProcessor : Processor :=
  { baseProcessor with
      sceneData :=
        { baseSceneData with
            getLight := fun n => if n = "L" then some ambientFixtureLight else none } }

/-- Witness for C9: the theorem applied to the ambient-light fixture. -/
theorem claim_C9_ambientLight_witness :
    createLightNode ambientFixtureProcessor ⟨0, 0, 0, 1⟩ ambientFixtureNode
        = (none, ambientLightStep ⟨0, 0, 0, 1⟩ ambientFixtureLight)
    ∧ (ambientLightStep ⟨0, 0, 0, 1⟩ ambientFixtureLight).r
        = (0 : ℚ) + ambientFixtureLight.color.r * ambientFixtureLight.intensity
    ∧ (ambientLightStep ⟨0, 0, 0, 1⟩ ambientFixtureLight).g
        = (0 : ℚ) + ambientFixtureLight.color.g * ambientFixtureLight.intensity
    ∧ (ambientLightStep ⟨0, 0, 0, 1⟩ ambientFixtureLight).b
        = (0 : ℚ) + ambientFixtureLight.color.b * ambientFixtureLight.intensity
    ∧ (ambientLightStep ⟨0, 0, 0, 1⟩ ambientFixtureLight).a = (1 : ℚ)
    ∧ ∀ l₁ l₂ : U3DLight,
        ambientLightStep (ambientLightStep ⟨0, 0, 0, 1⟩ l₁) l₂
          = ambientLightStep (ambientLightStep ⟨0, 0, 0, 1⟩ l₂) l₁ :=
  claim_C9_ambientLight ambientFixtureProcessor ⟨0, 0, 0, 1⟩ ambientFixtureNode
    ambientFixtureLight rfl rfl

/-! ### C3: uncovered (mesh, mode) combinations -/

/-- C3: encoding a non-empty mesh under any mode not covered by the mesh
mode table (every mode other than BoundingBox, TransparentBoundingBox,
TransparentBoundingBoxOutline, Wireframe, Vertices, Solid) reaches the
fatal `Q_ASSERT(false)` of the default branch — a diagnosable fatal
error under assertion-enabled builds — rather than silently producing an
encoding: the result records the assertion failure and carries no
output node. -/
theorem claim_C3_uncoveredMeshMode (P : Processor) (g : MeshGeometry)
    (hne : g.isEmptyFlag = false)
    (hmode : P.mode ∉ [SceneMode.boundingBox, SceneMode.transparentBoundingBox,
      SceneMode.transparentBoundingBoxOutline, SceneMode.wireframe,
      SceneMode.vertices, SceneMode.solid]) :
    createMeshGeometry P g = (none, true) := by
  cases hp : P.mode <;>
    first
      | exact absurd (by rw [hp]; decide) hmode
      | simp [createMeshGeometry, hne, hp]

/-- Witness for C3: the theorem applied to the one-triangle mesh with
mode ShadedIllustration. -/
theorem claim_C3_uncoveredMeshMode_witness :
    createMeshGeometry { baseProcessor with mode := .shadedIllustration }
      oneTriangleMesh = (none, true) :=
  claim_C3_uncoveredMeshMode { baseProcessor with mode := .shadedIllustration }
    oneTriangleMesh rfl (by decide)

/-! ### Fixed-size block lemmas for packed buffers -/

theorem flatMap_length_const {α β : Type} (f : α → List β) (k : Nat)
    (h : ∀ a, (f a).length = k) :
    ∀ l : List α, (l.flatMap f).length = l.length * k := by
  intro l
  induction l with
  | nil => simp
  | cons a t ih =>
    simp [List.flatMap_cons, ih, h a, Nat.succ_mul, Nat.add_comm]

theorem flatMap_drop_take {α β : Type} (f : α → List β) (k : Nat)
    (h : ∀ a, (f a).length = k) :
    ∀ (l : List α) (i : Nat) (hi : i < l.length),
      ((l.flatMap f).drop (k * i)).take k = f (l.get ⟨i, hi⟩) := by
  intro l
  induction l with
  | nil => intro i hi; cases hi
  | cons a t ih =>
    intro i hi
    cases i with
    | zero =>
      simp only [Nat.mul_zero, List.drop_zero, List.flatMap_cons, List.get]
      rw [← h a]
      exact List.take_left (f a) (t.flatMap f)
    | succ j =>
      have hj : j < t.length := Nat.lt_of_succ_lt_succ hi
      have hdrop : ((a :: t).flatMap f).drop (k * (j + 1)) = (t.flatMap f).drop (k * j) := by
        have hk : k * (j + 1) = (f a).length + k * j := by rw [h a]; ring
        rw [List.flatMap_cons, hk]
        exact List.drop_append (k * j)
      rw [hdrop]
      exact ih j hj

/-! ### C4: solid mesh vertex layout -/

/-- The mesh's vertices in the order the solid encoding writes them: for
every triangle, its three vertices. -/
def meshVertices (g : MeshGeometry) : List MeshVertex :=
  g.triangles.flatMap MeshTriangle.verticesList

theorem solidVertexBuffer_flatten (g : MeshGeometry) :
    solidVertexBuffer g = (meshVertices g).flatMap (solidVertexFloats g) := by
  unfold solidVertexBuffer meshVertices
  exact (List.flatMap_assoc g.triangles MeshTriangle.verticesList
    (solidVertexFloats g)).symm

theorem meshVertices_length (g : MeshGeometry) :
    (meshVertices g).length = g.triangles.length * 3 :=
  flatMap_length_const MeshTriangle.verticesList 3 (fun _ => rfl) g.triangles

/-- C4 (amended): Solid encoding of a non-empty mesh with T triangles
produces one triangle-list entity whose vertex buffer holds exactly 3T
vertices of 12 consecutive floats each, laid out as position(3),
normal(3), diffuseColor(4), texCoord(2); all four attributes share the
buffer with byte stride 48 and byte offsets 0, 12, 24, 40, and the
material is resolved once from the first shader reference. -/
theorem claim_C4_solidMeshLayout (P : Processor) (g : MeshGeometry)
    (hmode : P.mode = .solid) (hne : g.isEmptyFlag = false) :
    createMeshGeometry P g =
      (some (.mk true ""
        [.rendererComponent
          { primitiveType := .triangles
            attributes :=
              [{ name := defaultPositionAttributeName, vertexSize := 3, byteOffset := 0,
                 byteStride := 48, count := g.triangles.length * 3,
                 buffer := solidVertexBuffer g },
               { name := defaultNormalAttributeName, vertexSize := 3, byteOffset := 12,
                 byteStride := 48, count := g.triangles.length * 3,
                 buffer := solidVertexBuffer g },
               { name := defaultColorAttributeName, vertexSize := 4, byteOffset := 24,
                 byteStride := 48, count := g.triangles.length * 3,
                 buffer := solidVertexBuffer g },
               { name := defaultTextureCoordinateAttributeName, vertexSize := 2,
                 byteOffset := 40, byteStride := 48, count := g.triangles.length * 3,
                 buffer := solidVertexBuffer g }]
            indexAttribute := none },
         .materialComponent (createMaterialFromShader P (g.shaderNames 0) false)] []),
       false)
    ∧ (solidVertexBuffer g).length = (g.triangles.length * 3) * 12
    ∧ (meshVertices g).length = g.triangles.length * 3
    ∧ ∀ (i : Nat) (hi : i < (meshVertices g).length),
        ((solidVertexBuffer g).drop (12 * i)).take 12 =
          solidVertexFloats g ((meshVertices g).get ⟨i, hi⟩) := by
  refine ⟨?_, ?_, meshVertices_length g, ?_⟩
  · simp [createMeshGeometry, hne, hmode, MeshGeometry.getTriangleCount,
      solidStride, solidPositionByteOffset, solidNormalByteOffset,
      solidColorByteOffset, solidTextureByteOffset]
  · rw [solidVertexBuffer_flatten,
      flatMap_length_const (solidVertexFloats g) 12 (fun _ => rfl) (meshVertices g),
      meshVertices_length]
  · intro i hi
    rw [solidVertexBuffer_flatten]
    exact flatMap_drop_take (solidVertexFloats g) 12 (fun _ => rfl) (meshVertices g) i hi

/-- Extracting the byte offsets of all texture-coordinate attributes of
the result's renderer components. -/
def textureAttributeByteOffsets (result : Option SceneNode × Bool) : List Nat :=
  match result.1 with
  | none => []
  | some (SceneNode.mk _ _ comps _) =>
    comps.flatMap (fun c =>
      match c with
      | .rendererComponent r =>
        (r.attributes.filter
          (fun a => a.name == defaultTextureCoordinateAttributeName)).map
          Attribute.byteOffset
      | _ => [])

/-- Counterexample to C4 as stated: encoding the concrete one-triangle
mesh in Solid mode gives the texture-coordinate attribute byte offset 40
(position 0, normal 12, diffuseColor 24, then 24 + 4·4 = 40), not 36 as
the claim asserts. -/
theorem claim_C4_counterexample :
    textureAttributeByteOffsets
        (createMeshGeometry { baseProcessor with mode := .solid } oneTriangleMesh)
      = [40]
    ∧ (40 : Nat) ≠ 36 :=
  ⟨rfl, by decide⟩

/-- Witness for the amended C4: the theorem applied to the one-triangle
mesh; its buffer holds 36 = (1 · 3) · 12 floats. -/
theorem claim_C4_solidMeshLayout_witness :
    (solidVertexBuffer oneTriangleMesh).length = 36
    ∧ (meshVertices oneTriangleMesh).length = 3 :=
  ⟨(claim_C4_solidMeshLayout { baseProcessor with mode := .solid }
      oneTriangleMesh rfl rfl).2.1,
   (claim_C4_solidMeshLayout { baseProcessor with mode := .solid }
      oneTriangleMesh rfl rfl).2.2.1⟩

/-! ### C8: wireframe mesh edge indices -/

/-- C8: Wireframe encoding of a non-empty mesh with T triangles produces
a line-list entity whose unsigned-int index buffer holds exactly 6T
indices — for each triangle (v0,v1,v2) the edge pairs (v0,v1), (v1,v2),
(v2,v0) in that order. -/
theorem claim_C8_wireframeMesh (P : Processor) (g : MeshGeometry)
    (hmode : P.mode = .wireframe) (hne : g.isEmptyFlag = false) :
    createMeshGeometry P g =
      (some (.mk true ""
        [.rendererComponent
          { primitiveType := .lines
            attributes := [createPositionAttribute g.positions]
            indexAttribute := some
              { count := 2 * (g.triangles.length * 3)
                buffer := g.triangles.flatMap wireframeTriangleIndices } },
         .materialComponent
          (.diffuseSpecular P.auxiliaryColor (.colorValue transparentColor)
            transparentColor false [])] []),
       false)
    ∧ 2 * (g.triangles.length * 3) = 6 * g.triangles.length
    ∧ (g.triangles.flatMap wireframeTriangleIndices).length = 6 * g.triangles.length
    ∧ ∀ (t : Nat) (ht : t < g.triangles.length),
        ((g.triangles.flatMap wireframeTriangleIndices).drop (6 * t)).take 6 =
          [(g.triangles.get ⟨t, ht⟩).v0.positionIndex,
           (g.triangles.get ⟨t, ht⟩).v1.positionIndex,
           (g.triangles.get ⟨t, ht⟩).v1.positionIndex,
           (g.triangles.get ⟨t, ht⟩).v2.positionIndex,
           (g.triangles.get ⟨t, ht⟩).v2.positionIndex,
           (g.triangles.get ⟨t, ht⟩).v0.positionIndex] := by
  refine ⟨?_, by ring, ?_, ?_⟩
  · simp [createMeshGeometry, hne, hmode, MeshGeometry.getTriangleCount,
      Processor.getAuxiliaryColor]
  · rw [flatMap_length_const wireframeTriangleIndices 6 (fun _ => rfl) g.triangles]
    ring
  · intro t ht
    exact flatMap_drop_take wireframeTriangleIndices 6 (fun _ => rfl) g.triangles t ht

/-- Witness for C8: the theorem applied to the one-triangle mesh; its
index buffer holds 6 indices forming the triangle's three edges. -/
theorem claim_C8_wireframeMesh_witness :
    (oneTriangleMesh.triangles.flatMap wireframeTriangleIndices).length = 6 :=
  (claim_C8_wireframeMesh { baseProcessor with mode := .wireframe }
    oneTriangleMesh rfl rfl).2.2.1

/-! ### C5: material resolution from shaders -/

/-- The alpha-test render states a resolved material ends up with: one
state carrying the shader's function and reference value when alpha test
is enabled, none otherwise. -/
def shaderAlphaStates (shader : U3DShader) : List RenderState :=
  if shader.alphaTestEnabled then
    [.alphaTestState (mapAlphaTestFunction shader.alphaTestFunction)
      shader.alphaTestReference]
  else
    []

/-- C5: resolving a shader yields (1) a per-vertex-color material when it
has no texture bindings and vertex color is requested or forced; (2)
otherwise, with no texture bindings, a flat material carrying the
referenced Material's ambient/diffuse/specular colors with alpha
blending enabled iff the shader's alpha-test flag is set; (3) with at
least one texture binding, a textured material from the first binding's
decoded texture with transparent ambient and specular and alpha blending
iff alpha test is set.  In each case the alpha-test render state is
attached exactly when alpha test is enabled. -/
theorem claim_C5_materialFromShader (P : Processor) (shaderName : String)
    (force : Bool) :
    ((P.sceneData.getShader shaderName).textureInfos = [] →
      ((P.sceneData.getShader shaderName).useVertexColor = true ∨ force = true) →
      createMaterialFromShader P shaderName force =
        .perVertexColor (shaderAlphaStates (P.sceneData.getShader shaderName)))
    ∧ ((P.sceneData.getShader shaderName).textureInfos = [] →
      (P.sceneData.getShader shaderName).useVertexColor = false → force = false →
      createMaterialFromShader P shaderName force =
        .diffuseSpecular
          (P.sceneData.getMaterial
            (P.sceneData.getShader shaderName).materialName).ambientColor
          (.colorValue (P.sceneData.getMaterial
            (P.sceneData.getShader shaderName).materialName).diffuseColor)
          (P.sceneData.getMaterial
            (P.sceneData.getShader shaderName).materialName).specularColor
          (P.sceneData.getShader shaderName).alphaTestEnabled
          (shaderAlphaStates (P.sceneData.getShader shaderName)))
    ∧ (∀ ti rest, (P.sceneData.getShader shaderName).textureInfos = ti :: rest →
      createMaterialFromShader P shaderName force =
        .diffuseSpecular transparentColor
          (.textureValue (P.sceneData.getTexture ti.textureName)) transparentColor
          (P.sceneData.getShader shaderName).alphaTestEnabled
          (shaderAlphaStates (P.sceneData.getShader shaderName))) := by
  refine ⟨?_, ?_, ?_⟩
  · intro htex hvc
    have hvc' : ((P.sceneData.getShader shaderName).useVertexColor || force) = true := by
      rcases hvc with h | h <;> simp [h]
    cases hae : (P.sceneData.getShader shaderName).alphaTestEnabled <;>
      simp [createMaterialFromShader, htex, hvc', hae, shaderAlphaStates,
        Material.addRenderState]
  · intro htex hvc hforce
    cases hae : (P.sceneData.getShader shaderName).alphaTestEnabled <;>
      simp [createMaterialFromShader, htex, hvc, hforce, hae, shaderAlphaStates,
        Material.addRenderState]
  · intro ti rest htex
    cases hae : (P.sceneData.getShader shaderName).alphaTestEnabled <;>
      simp [createMaterialFromShader, htex, hae, shaderAlphaStates,
        Material.addRenderState]

/-- A shader with one texture binding and alpha test enabled. -/
def texturedFixtureShader : U3DShader :=
  { textureInfos := [⟨"T"⟩]
    useVertexColor := false
    alphaTestEnabled := true
    alphaTestFunction := .GREATER
    alphaTestReference := 1/4
    materialName := "M" }

/-- A processor resolving shader `S` to the textured fixture shader and
texture `T` to a 2×2 image. -/
def texturedFixtureProcessor : Processor :=
  { baseProcessor with
      sceneData :=
        { baseSceneData with
            getShader := fun n => if n = "S" then texturedFixtureShader else defaultShader
            getTexture := fun n => if n = "T" then ⟨2, 2, [1, 2, 3, 4]⟩ else ⟨0, 0, []⟩ } }

/-- Witness for C5: the theorem's textured branch applied to the
concrete fixture shader: the first binding's texture carries the
diffuse channel and the alpha-test state is attached. -/
theorem claim_C5_materialFromShader_witness :
    createMaterialFromShader texturedFixtureProcessor "S" false =
      .diffuseSpecular transparentColor
        (.textureValue ⟨2, 2, [1, 2, 3, 4]⟩) transparentColor true
        [.alphaTestState .GREATER (1/4)] :=
  (claim_C5_materialFromShader texturedFixtureProcessor "S" false).2.2 ⟨"T"⟩ [] rfl

/-! ### C6: line-set partitioning by shading id -/

/-- The keys of the shading-id map, in iteration order. -/
def keysOf (m : List (Nat × List LineSetLine)) : List Nat := m.map Prod.fst

theorem keysOf_insertByShadingId (m : List (Nat × List LineSetLine))
    (l : LineSetLine) (k : Nat) :
    k ∈ keysOf (insertByShadingId m l) ↔ k ∈ keysOf m ∨ k = l.shadingId := by
  induction m with
  | nil => simp [insertByShadingId, keysOf, eq_comm]
  | cons e rest ih =>
    obtain ⟨k', v⟩ := e
    simp only [insertByShadingId]
    split_ifs with h₁ h₂
    · simp [keysOf, eq_comm]
      tauto
    · subst h₂
      simp [keysOf, eq_comm]
      tauto
    · simp only [keysOf, List.map_cons, List.mem_cons] at ih ⊢
      rw [ih]
      tauto

theorem keysOf_insertByShadingId_head (m : List (Nat × List LineSetLine))
    (l : LineSetLine) :
    (keysOf (insertByShadingId m l)).head? = some l.shadingId
    ∨ (keysOf (insertByShadingId m l)).head? = (keysOf m).head? := by
  cases m with
  | nil => left; rfl
  | cons e rest =>
    obtain ⟨k', v⟩ := e
    simp only [insertByShadingId]
    split_ifs with h₁ h₂
    · left; rfl
    · right; rfl
    · right; rfl

theorem chain_keysOf_insertByShadingId (m : List (Nat × List LineSetLine))
    (l : LineSetLine) (h : List.Chain' (· < ·) (keysOf m)) :
    List.Chain' (· < ·) (keysOf (insertByShadingId m l)) := by
  induction m with
  | nil => simp [insertByShadingId, keysOf]
  | cons e rest ih =>
    obtain ⟨k', v⟩ := e
    simp only [keysOf, List.map_cons] at h
    simp only [insertByShadingId]
    split_ifs with h₁ h₂
    · simp only [keysOf, List.map_cons]
      exact h.cons h₁
    · simpa [keysOf] using h
    · have hlt : k' < l.shadingId := by omega
      have htail := ih h.tail
      simp only [keysOf, List.map_cons]
      rw [List.chain'_cons']
      refine ⟨?_, htail⟩
      intro y hy
      rcases keysOf_insertByShadingId_head rest l with hh | hh
      · simp only [keysOf] at hh
        rw [hh] at hy
        cases hy
        exact hlt
      · simp only [keysOf] at hh
        rw [hh] at hy
        exact (List.chain'_cons'.mp h).1 y hy

theorem filter_insertByShadingId (m : List (Nat × List LineSetLine))
    (l : LineSetLine) (xs : List LineSetLine)
    (hsorted : List.Chain' (· < ·) (keysOf m))
    (hfil : ∀ e ∈ m, e.2 = xs.filter (fun l' => l'.shadingId == e.1))
    (hnot : l.shadingId ∉ keysOf m →
      xs.filter (fun l' => l'.shadingId == l.shadingId) = []) :
    ∀ e ∈ insertByShadingId m l,
      e.2 = (xs ++ [l]).filter (fun l' => l'.shadingId == e.1) := by
  induction m with
  | nil =>
    intro e he
    simp only [insertByShadingId, List.mem_singleton] at he
    subst he
    simp only [List.filter_append, hnot (by simp [keysOf])]
    simp
  | cons hd rest ih =>
    obtain ⟨k', v⟩ := hd
    have hpair : List.Pairwise (· < ·) (keysOf ((k', v) :: rest)) :=
      List.chain'_iff_pairwise.mp hsorted
    simp only [keysOf, List.map_cons, List.pairwise_cons] at hpair
    intro e he
    simp only [insertByShadingId] at he
    split_ifs at he with h₁ h₂
    · -- fresh key inserted in front: the shading id is smaller than every key
      have hid_notin : l.shadingId ∉ keysOf ((k', v) :: rest) := by
        simp only [keysOf, List.map_cons, List.mem_cons]
        rintro (h | h)
        · omega
        · exact absurd h₁ (by have := hpair.1 _ h; omega)
      have hxs : xs.filter (fun l' => l'.shadingId == l.shadingId) = [] := hnot hid_notin
      rcases List.mem_cons.mp he with he | he
      · subst he
        simp only [List.filter_append, hxs]
        simp
      · have he2 := hfil e he
        have hkey : e.1 ∈ keysOf ((k', v) :: rest) := by
          rcases List.mem_cons.mp he with h | h
          · subst h; simp [keysOf]
          · simp only [keysOf, List.map_cons, List.mem_cons]
            exact Or.inr (List.mem_map_of_mem Prod.fst h)
        have hne : l.shadingId ≠ e.1 := fun hcontra => hid_notin (hcontra ▸ hkey)
        rw [List.filter_append, he2]
        simp [hne]
    · -- the shading id matches the head key: append to its lines
      subst h₂
      rcases List.mem_cons.mp he with he | he
      · rw [he]
        have hv := hfil (l.shadingId, v) (List.mem_cons_self _ _)
        simp only at hv
        simp only [List.filter_append, ← hv]
        simp
      · have he2 := hfil e (List.mem_cons_of_mem _ he)
        have hne : l.shadingId ≠ e.1 := by
          have := hpair.1 e.1 (List.mem_map_of_mem Prod.fst he)
          omega
        rw [List.filter_append, he2]
        simp [hne]
    · -- the shading id is larger: keep the head, insert into the tail
      have hk'ne : l.shadingId ≠ k' := by omega
      rcases List.mem_cons.mp he with he | he
      · subst he
        have hv := hfil (k', v) (List.mem_cons_self _ _)
        simp only at hv
        rw [List.filter_append, hv]
        simp [hk'ne]
      · refine ih hsorted.tail (fun e' he' => hfil e' (List.mem_cons_of_mem _ he')) ?_ e he
        intro hnotin
        refine hnot ?_
        simp only [keysOf, List.map_cons, List.mem_cons]
        rintro (h | h)
        · exact hk'ne h
        · exact hnotin (by simpa [keysOf] using h)

theorem foldl_insertByShadingId_spec :
    ∀ (rest xs : List LineSetLine) (m : List (Nat × List LineSetLine)),
      List.Chain' (· < ·) (keysOf m) →
      (∀ k, k ∈ keysOf m ↔ ∃ l ∈ xs, l.shadingId = k) →
      (∀ e ∈ m, e.2 = xs.filter (fun l' => l'.shadingId == e.1)) →
      List.Chain' (· < ·) (keysOf (rest.foldl insertByShadingId m))
      ∧ (∀ k, k ∈ keysOf (rest.foldl insertByShadingId m)
          ↔ ∃ l ∈ xs ++ rest, l.shadingId = k)
      ∧ (∀ e ∈ rest.foldl insertByShadingId m,
          e.2 = (xs ++ rest).filter (fun l' => l'.shadingId == e.1)) := by
  intro rest
  induction rest with
  | nil =>
    intro xs m hs hm hf
    simp only [List.foldl_nil, List.append_nil]
    exact ⟨hs, hm, hf⟩
  | cons r rest' ih =>
    intro xs m hs hm hf
    have hstep := ih (xs ++ [r]) (insertByShadingId m r)
      (chain_keysOf_insertByShadingId m r hs)
      (by
        intro k
        rw [keysOf_insertByShadingId, hm k]
        simp only [List.mem_append, List.mem_singleton]
        constructor
        · rintro (⟨l', hl', hse⟩ | h)
          · exact ⟨l', Or.inl hl', hse⟩
          · exact ⟨r, Or.inr rfl, h.symm⟩
        · rintro ⟨l', hl' | hl', hse⟩
          · exact Or.inl ⟨l', hl', hse⟩
          · subst hl'; exact Or.inr hse.symm)
      (filter_insertByShadingId m r xs hs hf (by
        intro hnotin
        rw [List.filter_eq_nil_iff]
        intro a ha hsa
        exact hnotin ((hm r.shadingId).mpr ⟨a, ha, by simpa using hsa⟩)))
    have hre : (xs ++ [r]) ++ rest' = xs ++ r :: rest' := by simp
    rw [hre] at hstep
    simpa [List.foldl_cons] using hstep

/-- The partition of a line list by shading id is a true partition: the
keys are strictly increasing (the `std::map` iteration order), a key is
present iff some line carries it, and each entry holds exactly the lines
with that shading id in their original order. -/
theorem shadingIdToLines_spec (lines : List LineSetLine) :
    List.Chain' (· < ·) (keysOf (shadingIdToLines lines))
    ∧ (∀ k, k ∈ keysOf (shadingIdToLines lines) ↔ ∃ l ∈ lines, l.shadingId = k)
    ∧ ∀ e ∈ shadingIdToLines lines,
        e.2 = lines.filter (fun l' => l'.shadingId == e.1) := by
  have h := foldl_insertByShadingId_spec lines [] []
    (by simp [keysOf]) (by simp [keysOf]) (by simp)
  simpa [shadingIdToLines] using h

theorem createLineSetGeometry_shadedBranch (P : Processor) (g : LineSetGeometry)
    (hmode : P.mode ∈ [SceneMode.shadedWireframe, SceneMode.hiddenWireframe,
      SceneMode.solidOutline, SceneMode.transparent, SceneMode.transparentWireframe,
      SceneMode.solid, SceneMode.solidWireframe])
    (hne : g.isEmptyFlag = false) :
    createLineSetGeometry P g =
      (match (shadingIdToLines g.lines).map
          (fun e => lineSetShadingUnit P g e.1 e.2) with
        | [entity] => (some entity, false)
        | es => (some (.mk true "" [] es), false)) := by
  simp only [List.mem_cons, List.not_mem_nil, or_false] at hmode
  rcases hmode with hp | hp | hp | hp | hp | hp | hp <;>
  · simp [createLineSetGeometry, hne, hp]
    generalize List.map (fun item => lineSetShadingUnit P g item.1 item.2)
      (shadingIdToLines g.lines) = es
    rcases es with _ | ⟨a, _ | ⟨b, t⟩⟩ <;> rfl

/-- C6: in the Solid/Shaded mode family, a non-empty line set is
partitioned by shading id (strictly increasing keys, a key present iff a
line carries it, each partition holding exactly its id's lines in
order); each partition yields one line-list unit with its own position
and color attributes and a material resolved from that shading id's
shader; a single partition is returned directly and k ≠ 1 partitions
produce a composite grouping exactly the k units. -/
theorem claim_C6_lineSetShadingPartition (P : Processor) (g : LineSetGeometry)
    (hmode : P.mode ∈ [SceneMode.shadedWireframe, SceneMode.hiddenWireframe,
      SceneMode.solidOutline, SceneMode.transparent, SceneMode.transparentWireframe,
      SceneMode.solid, SceneMode.solidWireframe])
    (hne : g.isEmptyFlag = false) :
    List.Chain' (· < ·) (keysOf (shadingIdToLines g.lines))
    ∧ (∀ k, k ∈ keysOf (shadingIdToLines g.lines) ↔ ∃ l ∈ g.lines, l.shadingId = k)
    ∧ (∀ e ∈ shadingIdToLines g.lines,
        e.2 = g.lines.filter (fun l' => l'.shadingId == e.1))
    ∧ (∀ sid partLines, shadingIdToLines g.lines = [(sid, partLines)] →
        createLineSetGeometry P g = (some (lineSetShadingUnit P g sid partLines), false))
    ∧ ((shadingIdToLines g.lines).length ≠ 1 →
        createLineSetGeometry P g =
          (some (.mk true "" []
            ((shadingIdToLines g.lines).map
              (fun e => lineSetShadingUnit P g e.1 e.2))), false))
    ∧ (∀ sid partLines, ∃ posAttr colAttr,
        lineSetShadingUnit P g sid partLines =
          .mk true ""
            [.rendererComponent
              { primitiveType := .lines
                attributes := [posAttr, colAttr]
                indexAttribute := none },
             .materialComponent (createMaterialFromShader P (g.shaderNames sid) true)] []
        ∧ posAttr.name = defaultPositionAttributeName
        ∧ colAttr.name = defaultColorAttributeName
        ∧ posAttr.count = partLines.length * 2
        ∧ colAttr.count = partLines.length * 2) := by
  obtain ⟨hchain, hkeys, hfil⟩ := shadingIdToLines_spec g.lines
  refine ⟨hchain, hkeys, hfil, ?_, ?_, ?_⟩
  · intro sid partLines hONE
    rw [createLineSetGeometry_shadedBranch P g hmode hne, hONE]
    rfl
  · intro hlen
    rw [createLineSetGeometry_shadedBranch P g hmode hne]
    rcases hm : shadingIdToLines g.lines with _ | ⟨e₁, rest⟩
    · rfl
    · rcases rest with _ | ⟨e₂, rest₂⟩
      · rw [hm] at hlen
        simp at hlen
      · rfl
  · intro sid partLines
    refine ⟨_, _, rfl, rfl, rfl, ?_, ?_⟩
    · show (partLines.flatMap (fun line =>
        [g.getPosition line.position1, g.getPosition line.position2])).length
          = partLines.length * 2
      exact flatMap_length_const (fun line =>
        [g.getPosition line.position1, g.getPosition line.position2]) 2
        (fun _ => rfl) partLines
    · show (partLines.flatMap (fun line =>
        [(g.getDiffuseColor line.diffuseColor1).toVector3D,
         (g.getDiffuseColor line.diffuseColor2).toVector3D])).length
          = partLines.length * 2
      exact flatMap_length_const (fun line =>
        [(g.getDiffuseColor line.diffuseColor1).toVector3D,
         (g.getDiffuseColor line.diffuseColor2).toVector3D]) 2
        (fun _ => rfl) partLines

/-- A line set whose two lines carry two distinct shading ids. -/
def twoIdLineSet : LineSetGeometry :=
  { positions := [⟨0, 0, 0⟩, ⟨1, 0, 0⟩, ⟨0, 1, 0⟩]
    diffuseColors := [⟨1, 0, 0, 1⟩, ⟨0, 1, 0, 1⟩]
    lines := [⟨0, 1, 0, 1, 5⟩, ⟨1, 2, 1, 0, 3⟩]
    shaderNames := fun _ => "S"
    isEmptyFlag := false }

/-- Witness for C6: the theorem applied to the two-shading-id line set
in Solid mode — the output is a composite of the two per-partition
units. -/
theorem claim_C6_lineSetShadingPartition_witness :
    createLineSetGeometry { baseProcessor with mode := .solid } twoIdLineSet =
      (some (.mk true "" []
        ((shadingIdToLines twoIdLineSet.lines).map
          (fun e => lineSetShadingUnit { baseProcessor with mode := .solid }
            twoIdLineSet e.1 e.2))), false) :=
  (claim_C6_lineSetShadingPartition { baseProcessor with mode := .solid }
    twoIdLineSet (by decide) rfl).2.2.2.2.1 (by decide)

/-! ### C1: a Model node that yields nothing -/

/-- C1 (amended): when a Model node's resource resolves to no renderable
geometry, `createNode` returns before the child loop: the node and its
entire declared subtree are dropped — the children are not visited and
the transient state is changed only by the recorded assertion flag. -/
theorem claim_C1_modelSubtreeDropped (P : Processor) (fuel : Nat) (node : U3DNode)
    (st : BuildSt) (htype : node.nodeType = .model)
    (hnone : (createModelNode P node).1 = none) :
    createNodeFuel P (fuel + 1) node st =
      some (none, { st with
        assertionFailed := st.assertionFailed || (createModelNode P node).2 }) := by
  rcases hr : createModelNode P node with ⟨r₁, r₂⟩
  rw [hr] at hnone
  simp only at hnone
  subst hnone
  simp [createNodeFuel, htype, hr]

/-- The group child of the dropped model node. -/
def c1ChildNode : U3DNode :=
  { defaultU3DNode with nodeName := "C", nodeType := .group }

/-- A model node with a declared child and a missing geometry
resource. -/
def c1ModelNode : U3DNode :=
  { defaultU3DNode with
      nodeName := "M", nodeType := .model, children := ["C"], resourceName := "G" }

/-- A processor rooted at the model node; the geometry resource is
missing, the child resolves to the group node. -/
def c1Processor : Processor :=
  { baseProcessor with
      sceneRoot := "M"
      sceneData :=
        { baseSceneData with
            getNode := fun n => if n = "C" then c1ChildNode else c1ModelNode } }

/-- Counterexample to C1 as stated: building the concrete scene whose
root Model node has a missing geometry resource yields no output tree at
all — the declared child `C` is absent — even though the child alone
builds to a node. -/
theorem claim_C1_counterexample :
    createSceneFuel c1Processor 5 = some (none, ⟨⟨0, 0, 0, 1⟩, false⟩)
    ∧ createNodeFuel { c1Processor with processedNodes := [] } 5 c1ChildNode
        ⟨⟨0, 0, 0, 1⟩, false⟩
      = some (some (SceneNode.mk false "C" [] []), ⟨⟨0, 0, 0, 1⟩, false⟩) :=
  ⟨rfl, rfl⟩

/-- Witness for the amended C1: the theorem applied to the concrete
model node with its missing resource. -/
theorem claim_C1_modelSubtreeDropped_witness :
    createNodeFuel c1Processor (4 + 1) c1ModelNode ⟨⟨0, 0, 0, 1⟩, false⟩ =
      some (none, { (⟨⟨0, 0, 0, 1⟩, false⟩ : BuildSt) with
        assertionFailed := false || (createModelNode c1Processor c1ModelNode).2 }) :=
  claim_C1_modelSubtreeDropped c1Processor 4 c1ModelNode ⟨⟨0, 0, 0, 1⟩, false⟩ rfl rfl

/-! ### C2: the processed-nodes memo and cyclic graphs -/

/-- A group node that lists itself as its only child. -/
def cyclicNode : U3DNode :=
  { defaultU3DNode with nodeName := "A", nodeType := .group, children := ["A"] }

/-- A processor rooted at the self-referencing node. -/
def cyclicProcessor : Processor :=
  { baseProcessor with
      sceneRoot := "A"
      sceneData := { baseSceneData with getNode := fun _ => cyclicNode } }

theorem cyclic_createNode_diverges :
    ∀ (fuel : Nat) (st : BuildSt),
      createNodeFuel { cyclicProcessor with processedNodes := [] } fuel cyclicNode st
        = none := by
  intro fuel
  induction fuel with
  | zero => intro st; rfl
  | succ n ih =>
    intro st
    simp [cyclicProcessor, baseProcessor, baseSceneData, cyclicNode,
      defaultU3DNode] at ih
    simp [createNodeFuel, processChildrenAux, cyclicNode, defaultU3DNode,
      cyclicProcessor, baseProcessor, baseSceneData, ih]

/-- C2 (amended): the memo of processed node names is cleared at the
start of every build but never consulted during the visit; on the
concrete model source whose node graph contains a cycle, `createScene`
does not terminate — whatever the memo's initial contents, every finite
recursion-depth budget is exhausted. -/
theorem claim_C2_memoUnusedCyclicBuildDiverges (fuel : Nat) (memo : List String) :
    createSceneFuel { cyclicProcessor with processedNodes := memo } fuel = none := by
  show createNodeFuel { cyclicProcessor with processedNodes := [] } fuel cyclicNode
      ⟨⟨0, 0, 0, 1⟩, false⟩ = none
  exact cyclic_createNode_diverges fuel _

/-- Counterexample to C2 as stated: no recursion-depth budget lets the
build of the cyclic source finish — the visit never terminates, because
the cleared memo is never consulted to stop the revisit. -/
theorem claim_C2_counterexample :
    ¬ ∃ fuel : Nat, (createSceneFuel cyclicProcessor fuel).isSome = true := by
  rintro ⟨fuel, hsome⟩
  have h : createSceneFuel cyclicProcessor fuel = none := by
    show createNodeFuel { cyclicProcessor with processedNodes := [] } fuel cyclicNode
        ⟨⟨0, 0, 0, 1⟩, false⟩ = none
    exact cyclic_createNode_diverges fuel _
  rw [h] at hsome
  simp at hsome

/-! ### C10: the face color is stored but never consulted -/

theorem createModelNode_faceColor (P : Processor) (c : QColor) (node : U3DNode) :
    createModelNode (P.setFaceColor c) node = createModelNode P node := rfl

theorem createLightNode_faceColor (P : Processor) (c : QColor) (amb : QColor)
    (node : U3DNode) :
    createLightNode (P.setFaceColor c) amb node = createLightNode P amb node := rfl

theorem setFaceColor_sceneData (P : Processor) (c : QColor) :
    (P.setFaceColor c).sceneData = P.sceneData := rfl

theorem createNodeFuel_faceColor (P : Processor) (c : QColor) :
    ∀ (fuel : Nat) (node : U3DNode) (st : BuildSt),
      createNodeFuel (P.setFaceColor c) fuel node st = createNodeFuel P fuel node st := by
  intro fuel
  induction fuel with
  | zero => intro node st; rfl
  | succ n ih =>
    intro node st
    have hrec : (fun nd s => createNodeFuel (P.setFaceColor c) n nd s)
        = fun nd s => createNodeFuel P n nd s := by
      funext nd s
      exact ih nd s
    simp only [createNodeFuel]
    rw [hrec, createModelNode_faceColor, createLightNode_faceColor,
      setFaceColor_sceneData]

theorem createSceneFuel_faceColor (P : Processor) (c : QColor) (fuel : Nat) :
    createSceneFuel (P.setFaceColor c) fuel = createSceneFuel P fuel :=
  calc createSceneFuel (P.setFaceColor c) fuel
      = createNodeFuel (({ P with processedNodes := [] } : Processor).setFaceColor c)
          fuel (P.sceneData.getNode P.sceneRoot)
          { globalAmbientColor := P.globalAmbientColor, assertionFailed := false } := rfl
    _ = createNodeFuel { P with processedNodes := [] } fuel
          (P.sceneData.getNode P.sceneRoot)
          { globalAmbientColor := P.globalAmbientColor, assertionFailed := false } :=
        createNodeFuel_faceColor _ c fuel _ _
    _ = createSceneFuel P fuel := rfl

/-- C10: two builds differing only in the face-color style parameter
produce identical output scenes; the stored face color is readable back
through its accessor but never consulted, and the transparent
bounding-box faces carry the auxiliary color with the style's opacity as
alpha, not the face color. -/
theorem claim_C10_faceColorNoninterference (P : Processor) (c₁ c₂ : QColor)
    (fuel : Nat) :
    Processor.getFaceColor (Processor.setFaceColor P c₁) = c₁
    ∧ createSceneFuel (P.setFaceColor c₁) fuel = createSceneFuel (P.setFaceColor c₂) fuel
    ∧ ∀ bb : PDF3DBoundingBox,
        createBoundingBoxTransparentGeometry (P.setFaceColor c₁) bb =
          .mk true ""
            [.rendererComponent
              { primitiveType := .triangles
                attributes :=
                  [{ name := defaultPositionAttributeName, vertexSize := 3,
                     byteOffset := 0, byteStride := 12, count := 8,
                     buffer := flattenVec3 (boxCorners bb.getMin bb.getMax) }]
                indexAttribute := some { count := 36, buffer := solidBoxIndices } },
             .materialComponent
              (.diffuseSpecular transparentColor
                (.colorValue { P.auxiliaryColor with a := P.opacity })
                transparentColor true [.cullFaceNone])] [] := by
  refine ⟨rfl, ?_, fun bb => rfl⟩
  rw [createSceneFuel_faceColor, createSceneFuel_faceColor]

end Pdf3D
